import Mathlib

/-!
Verification of the Claim Ledger Validation Engine of
`Admissibility_Physics_Engine_V3_5.py` (shallow embedding).

Python records are modelled as insertion-ordered association lists of
field name to `PyVal`; a batch (`all_results`) is an insertion-ordered
association list of claim id to record, mirroring Python's ordered
dicts.  Fallible Python operations (iteration over a non-iterable,
`d[k]` on a missing key, attribute access on the wrong type) are
modelled with `Except String`, carrying the Python exception text.
-/

/-- A Python value, as far as the engine inspects values. -/
inductive PyVal where
  | none : PyVal
  | bool : Bool → PyVal
  | int : Int → PyVal
  | str : String → PyVal
  | list : List PyVal → PyVal
  | dict : List (String × PyVal) → PyVal

/-- One theorem record: a Python dict from field name to value. -/
abbrev Record := List (String × PyVal)

/-- A batch of records keyed by theorem id (`all_results` in the source). -/
abbrev Batch := List (String × Record)

/-- Python `r.get(k)` returning `some` when the key is present. -/
def recGet (r : Record) (k : String) : Option PyVal :=
  (r.find? (fun p => p.1 == k)).map (fun p => p.2)

/-- Python `r.get(k, d)`: dict lookup with a default. -/
def recGetD (r : Record) (k : String) (d : PyVal) : PyVal :=
  (recGet r k).getD d

/-- Python `r[k]`: dict indexing; raises `KeyError` when the key is absent. -/
def pyGetItem (r : Record) (k : String) : Except String PyVal :=
  match recGet r k with
  | some v => .ok v
  | Option.none => .error ("KeyError: " ++ k)

/-- Python `type(v)` as rendered inside an f-string, e.g. `<class 'int'>`. -/
def pyTypeName : PyVal → String
  | .none => "<class 'NoneType'>"
  | .bool _ => "<class 'bool'>"
  | .int _ => "<class 'int'>"
  | .str _ => "<class 'str'>"
  | .list _ => "<class 'list'>"
  | .dict _ => "<class 'dict'>"

/-- The type name as it appears in Python error messages, e.g. `'int'`. -/
def pyTypeShort : PyVal → String
  | .none => "'NoneType'"
  | .bool _ => "'bool'"
  | .int _ => "'int'"
  | .str _ => "'str'"
  | .list _ => "'list'"
  | .dict _ => "'dict'"

/-- Kernel-reducible emptiness test for strings. -/
def strIsEmpty (s : String) : Bool := s.data.isEmpty

/-- Python's whitespace characters as trimmed by `str.strip()`. -/
def wsChar (c : Char) : Bool :=
  c == ' ' || c == '\t' || c == '\n' || c == '\r' || c == '\x0b' || c == '\x0c'

/-- Python `s.strip()`: remove leading and trailing whitespace
(kernel-reducible, over the character list). -/
def strTrim (s : String) : String :=
  String.mk (((s.data.dropWhile wsChar).reverse.dropWhile wsChar).reverse)

/-- Python `s.startswith(pre)` (kernel-reducible, over the character list). -/
def strStartsWith (s pre : String) : Bool :=
  pre.data.isPrefixOf s.data

/-- Python truthiness (`if v:`). -/
def pyTruthy : PyVal → Bool
  | .none => false
  | .bool b => b
  | .int n => n != 0
  | .str s => !(strIsEmpty s)
  | .list l => !l.isEmpty
  | .dict d => !d.isEmpty

/-- Python `repr(v)`.  Python's quote-choice subtleties for strings containing
quotes are not reproduced (no claim depends on them); strings repr as
single-quoted. -/
def pyRepr : PyVal → String
  | .none => "None"
  | .bool b => if b then "True" else "False"
  | .int n => toString n
  | .str s => "'" ++ s ++ "'"
  | .list l => "[" ++ ", ".intercalate (l.attach.map (fun d => pyRepr d.1)) ++ "]"
  | .dict d =>
      "\x7b" ++ ", ".intercalate
        (d.attach.map (fun p => "'" ++ p.1.1 ++ "': " ++ pyRepr p.1.2)) ++ "\x7d"
termination_by v => sizeOf v
decreasing_by
  · have := List.sizeOf_lt_of_mem d.2
    simp only [PyVal.list.sizeOf_spec]
    omega
  · rcases p with ⟨⟨k, x⟩, hm⟩
    have h1 := List.sizeOf_lt_of_mem hm
    have h2 : sizeOf ((k, x) : String × PyVal) = 1 + sizeOf k + sizeOf x := rfl
    simp only [PyVal.dict.sizeOf_spec]
    omega

/-- Python `str(v)` (as used in f-strings): identity on strings, `repr` inside
containers, `None`/`True`/`False` spelled out. -/
def pyStr : PyVal → String
  | .str s => s
  | v => pyRepr v

/-- Python equality `==` restricted to the value shapes the engine
compares (`bool`/`int` compare numerically as in Python; containers
compare elementwise; Python's order-insensitive dict equality is
modelled pairwise in order, which agrees on all values the engine
builds). -/
def pyValBeq : PyVal → PyVal → Bool
  | .none, .none => true
  | .bool a, .bool b => a == b
  | .bool a, .int b => (if a then (1 : Int) else 0) == b
  | .int a, .bool b => a == (if b then (1 : Int) else 0)
  | .int a, .int b => a == b
  | .str a, .str b => a == b
  | .list a, .list b =>
      a.length == b.length &&
      ((a.zip b).attach.all (fun p => pyValBeq p.1.1 p.1.2))
  | .dict a, .dict b =>
      a.length == b.length &&
      ((a.zip b).attach.all (fun p => p.1.1.1 == p.1.2.1 && pyValBeq p.1.1.2 p.1.2.2))
  | _, _ => false
termination_by v _ => sizeOf v
decreasing_by
  · rcases p with ⟨⟨x, y⟩, hm⟩
    have := List.sizeOf_lt_of_mem (List.of_mem_zip hm).1
    simp only [PyVal.list.sizeOf_spec]
    omega
  · rcases p with ⟨⟨⟨k, x⟩, y⟩, hm⟩
    have h1 := List.sizeOf_lt_of_mem (List.of_mem_zip hm).1
    have h2 : sizeOf ((k, x) : String × PyVal) = 1 + sizeOf k + sizeOf x := rfl
    simp only [PyVal.dict.sizeOf_spec]
    omega

/-- Iteration `for x in v`: lists yield elements, strings yield their
characters, dicts yield their keys; other values raise `TypeError`. -/
def pyIter : PyVal → Except String (List PyVal)
  | .list l => .ok l
  | .str s => .ok (s.toList.map (fun c => .str (String.mk [c])))
  | .dict d => .ok (d.map (fun p => .str p.1))
  | v => .error ("TypeError: " ++ pyTypeShort v ++ " object is not iterable")

/-- Python `d.split('(')` and `d.strip()` require `d` to be a string; anything
else raises `AttributeError`. -/
def pyAsStr : PyVal → Except String String
  | .str s => .ok s
  | v => .error ("AttributeError: " ++ pyTypeShort v ++ " object has no attribute split")

/-- Decidable equality of `Except` results (for evaluating concrete
runs in witnesses and counterexamples). -/
instance {e a : Type} [DecidableEq e] [DecidableEq a] : DecidableEq (Except e a) :=
  fun x y => match x, y with
  | .error u, .error v => if h : u = v then isTrue (by rw [h]) else isFalse (by simp [h])
  | .ok u, .ok v => if h : u = v then isTrue (by rw [h]) else isFalse (by simp [h])
  | .error _, .ok _ => isFalse (by simp)
  | .ok _, .error _ => isFalse (by simp)

/-- Python `d.split('(')[0].strip()`: the part before the first `(`, with
surrounding whitespace removed. -/
def splitParenStrip (s : String) : String :=
  strTrim (String.mk (s.data.takeWhile (fun c => c ≠ '(')))

/-!
## Record Schema Validator (`_verify_schema`, source lines 54-68)

Issues are modelled structurally (one constructor per `errors.append`
site in the source) together with a renderer producing the Python
message text; `validate_dependencies` embeds the rendered strings.
-/

/-- The required fields of `_verify_schema`, in the order of the source
literal.  Python renders the `required - set(keys)` set in an
unspecified hash order; this embedding fixes the literal order. -/
def REQUIRED_FIELDS : List String :=
  ["name", "tier", "passed", "epistemic", "summary", "key_result", "dependencies"]

/-- The closed set of epistemic status tags (source line 66). -/
def EPISTEMIC_TAGS : List String :=
  ["P", "P_structural", "C_structural", "C", "W", "ERROR"]

/-- One schema issue, one constructor per `errors.append` in
`_verify_schema`. -/
inductive SchemaIssue where
  | missingFields (names : List String)
  | passedNotBool (got : PyVal)
  | depsNotList
  | unknownEpistemic (got : PyVal)

/-- Python `isinstance(v, bool)`. -/
def isBoolVal : PyVal → Bool
  | .bool _ => true
  | _ => false

/-- Python `isinstance(v, list)`. -/
def isListVal : PyVal → Bool
  | .list _ => true
  | _ => false

/-- Python `result.get('epistemic') in {'P', ...}`: only a string can be a
member of the tag set. -/
def epistemicOk : PyVal → Bool
  | .str s => EPISTEMIC_TAGS.contains s
  | _ => false

/-- The required fields absent from a record
(`required - set(result.keys())`). -/
def missingRequired (result : Record) : List String :=
  REQUIRED_FIELDS.filter (fun f => (recGet result f).isNone)

/-- Source `_verify_schema(result)`: required-field, type and enum checks, in
source order.  Total: never raises, always returns a list. -/
def verify_schema (result : Record) : List SchemaIssue :=
  let missing := missingRequired result
  (if missing.isEmpty then [] else [SchemaIssue.missingFields missing]) ++
  (let pv := (recGet result "passed").getD .none
   if isBoolVal pv then [] else [SchemaIssue.passedNotBool pv]) ++
  (if isListVal (recGetD result "dependencies" (.list [])) then [] else [SchemaIssue.depsNotList]) ++
  (let ev := (recGet result "epistemic").getD .none
   if epistemicOk ev then [] else [SchemaIssue.unknownEpistemic ev])

/-- Python `repr` of a set of strings, `\x7b'a', 'b'\x7d` (order fixed
to the embedding's canonical order; Python's set order is
per-process). -/
def pyStrSetRepr (l : List String) : String :=
  "\x7b" ++ ", ".intercalate (l.map (fun s => "'" ++ s ++ "'")) ++ "\x7d"

/-- Python `repr` of a list of strings, `['a', 'b']`. -/
def pyStrListRepr (l : List String) : String :=
  "[" ++ ", ".intercalate (l.map (fun s => "'" ++ s ++ "'")) ++ "]"

/-- The message text of a schema issue, as appended by
`_verify_schema`. -/
def renderSchemaIssue : SchemaIssue → String
  | .missingFields names => "Missing fields: " ++ pyStrSetRepr names
  | .passedNotBool got => "'passed' must be bool, got " ++ pyTypeName got
  | .depsNotList => "'dependencies' must be list"
  | .unknownEpistemic got => "Unknown epistemic tag: " ++ pyStr got

/-!
## Cycle Detector (`_detect_cycles`, source lines 71-103)
-/

/-- The fixed axiom identifiers (source line 324). -/
def AXIOMS : List String := ["A1", "A2", "A3", "A4", "A5"]

/-- Known aliases and external references (source lines 327-332). -/
def KNOWN_EXTERNALS : List String :=
  ["Regime assumption", "T8 (d=4)", "T_channels",
   "Gamma_closure", "Gamma_geo closure", "Γ_closure", "T3", "T_gauge", "T7",
   "R11", "R12", "L_e*", "L_epsilon*", "L_ε*",
   "meaning = robustness (definitional)"]

/-- The adjacency-list construction of `_detect_cycles` (source lines
74-78): clean each dependency reference, keep those that are claim ids
in the batch and not axioms.  Iterating a non-iterable `dependencies`
value or cleaning a non-string reference raises. -/
def buildGraph (allResults : Batch) (axioms : List String) :
    Except String (List (String × List String)) :=
  let keys := allResults.map (fun p => p.1)
  allResults.mapM (fun p => do
    let rawDeps ← pyIter (recGetD p.2 "dependencies" (.list []))
    let deps ← rawDeps.mapM (fun d => do
      let s ← pyAsStr d
      pure (splitParenStrip s))
    pure (p.1, deps.filter (fun d => keys.contains d && !(axioms.contains d))))

/-- Functional update of the color map (`color[node] = v`; all nodes
are pre-seeded, so position-preserving replacement matches the Python
dict). -/
def setColor (c : List (String × Nat)) (k : String) (v : Nat) : List (String × Nat) :=
  c.map (fun p => if p.1 == k then (k, v) else p)

/-- Lookup of `color[node]`. -/
def getColor (c : List (String × Nat)) (k : String) : Option Nat :=
  (c.find? (fun p => p.1 == k)).map (fun p => p.2)

/-- The recursive `dfs(node, path)` of `_detect_cycles` (source lines
85-97), with explicit state `(color, cycles)`.  `0`/`1`/`2` are
WHITE/GRAY/BLACK.  A gray neighbor closes a cycle: the suffix of the
path from its first occurrence, plus the neighbor (Python's
`path.index` cannot fail there because every gray node is on the
current path).  `fuel` bounds the recursion depth; `graph.length + 1`
always suffices because each recursive call grays a previously white
node. -/
def dfsVisit (graph : List (String × List String)) :
    Nat → String → List String → List (String × Nat) × List String →
    List (String × Nat) × List String
  | 0, _, _, st => st
  | fuel + 1, node, path, st =>
    let st1 := (setColor st.1 node 1, st.2)
    let st2 := (((graph.find? (fun p => p.1 == node)).map (fun p => p.2)).getD []).foldl
      (fun st nb =>
        match getColor st.1 nb with
        | Option.none => st
        | some c =>
          if c == 1 then
            let i := path.indexOf nb
            (st.1, st.2 ++ [" -> ".intercalate (path.drop i ++ [nb])])
          else if c == 0 then
            dfsVisit graph fuel nb (path ++ [nb]) st
          else st) st1
    (setColor st2.1 node 2, st2.2)

/-- Source `_detect_cycles(all_results, axioms)`: build the graph, then run
the three-color DFS from every still-white node in batch order. -/
def detect_cycles (allResults : Batch) (axioms : List String) :
    Except String (List String) := do
  let graph ← buildGraph allResults axioms
  let init : List (String × Nat) × List String := (graph.map (fun p => (p.1, 0)), [])
  let res := graph.foldl (fun st p =>
      if (getColor st.1 p.1).getD 0 == 0 then
        dfsVisit graph (graph.length + 1) p.1 [p.1] st
      else st) init
  pure res.2

/-!
## Ledger Validator (`validate_dependencies`, source lines 335-364)
-/

/-- The result dict of `validate_dependencies`. -/
structure DepReport where
  valid : Bool
  issues : List String
  total_checked : Nat
  cycles_found : Nat
deriving Repr, DecidableEq

/-- The `known_ids` set: batch keys, axioms and known externals
(source line 339; a list models the set, membership is what is
used). -/
def validateKnownIds (allResults : Batch) : List String :=
  allResults.map (fun p => p.1) ++ AXIOMS ++ KNOWN_EXTERNALS

/-- The unresolved-reference message (source line 352). -/
def refCheckMsg (tid dep : String) : String :=
  tid ++ " depends on '" ++ dep ++ "' -- not in registry"

/-- The per-reference check inside `validate_dependencies` (source
lines 349-352): report `dep` of record `tid` unless its cleaned form or
its raw form is a known id, or it literally starts with an axiom id. -/
def refIssue (knownIds : List String) (tid dep : String) : Option String :=
  let depClean := splitParenStrip dep
  if !(knownIds.contains depClean) && !(knownIds.contains dep) then
    if !(AXIOMS.any (fun a => strStartsWith dep a)) then
      some (refCheckMsg tid dep)
    else Option.none
  else Option.none

/-- The dependency-reference issues of one record (the inner `for dep`
loop): iterating a non-iterable `dependencies` value or checking a
non-string reference raises. -/
def recordDepIssues (knownIds : List String) (tid : String) (r : Record) :
    Except String (List String) := do
  let rawDeps ← pyIter (recGetD r "dependencies" (.list []))
  rawDeps.foldlM (fun acc d => do
    let s ← pyAsStr d
    pure (acc ++ (refIssue knownIds tid s).toList)) []

/-- The per-record loop of `validate_dependencies` (source lines
341-352): schema issues, then unresolved-reference issues, record by
record. -/
def recordIssuesPhase (allResults : Batch) : Except String (List String) :=
  allResults.foldlM (fun acc p => do
    let schemaErrors := verify_schema p.2
    let acc := if schemaErrors.isEmpty then acc else
      acc ++ [p.1 ++ " schema errors: " ++ pyStrListRepr (schemaErrors.map renderSchemaIssue)]
    let depIssues ← recordDepIssues (validateKnownIds allResults) p.1 p.2
    pure (acc ++ depIssues)) []

/-- Source `validate_dependencies(all_results)`: per-record schema issues and
unresolved-reference issues, then the cycle summary issue; `valid` iff
no issues. -/
def validate_dependencies (allResults : Batch) : Except String DepReport := do
  let issues ← recordIssuesPhase allResults
  let cycles ← detect_cycles allResults AXIOMS
  let issues := if cycles.isEmpty then issues else
    issues ++ ["CIRCULAR DEPENDENCIES: " ++ pyStrListRepr cycles]
  pure { valid := issues.length == 0
         issues := issues
         total_checked := allResults.length
         cycles_found := cycles.length }

/-!
## Master run, statistics phase (`run_master`, source lines 489-549)

Steps 0-6 of `run_master` assemble `all_results` by merging the outputs
of producer modules (`Admissibility_Physics_Theorems_V3_5`,
`Admissibility_Physics_Gravity_V3_5`, `theorem_0_canonical_v4`) that are
not part of this source file, together with the in-file constant
tables.  The assembled batch and the gravity bundle's `all_pass` flag
(read at source line 526) enter this embedding as parameters; the
validation/statistics/verdict phase (steps 7-9) is embedded below.
-/

/-- One entry of `tier_stats`. -/
structure TierStat where
  name : String
  total : Nat
  passed : Nat
  theorems : List String
deriving Repr, DecidableEq

/-- The named sector verdicts (source lines 543-547). -/
structure SectorVerdicts where
  gauge : Bool
  gravity : Bool
  rg_mechanism : Bool
deriving Repr, DecidableEq

/-- The master report dict (source lines 533-549).  The raw
`gravity_bundle` entry (an opaque producer value) is not carried. -/
structure MasterReport where
  version : String
  date : String
  total_theorems : Nat
  passed : Nat
  all_pass : Bool
  all_results : Batch
  epistemic_counts : List (PyVal × Nat)
  tier_stats : List (Nat × TierStat)
  dependency_check : DepReport
  sector_verdicts : SectorVerdicts

/-- Python `sum(1 for r in vals if r['passed'])`: count records whose `passed`
value is truthy; indexing a record without the key raises `KeyError`
(at the first record lacking it, as the generator does). -/
def countPassed : List Record → Except String Nat
  | [] => .ok 0
  | r :: rest => do
    let v ← pyGetItem r "passed"
    let c ← countPassed rest
    pure ((if pyTruthy v then 1 else 0) + c)

/-- Bump the count of key `e` in the insertion-ordered counter dict
(`epistemic_counts.get(e, 0) + 1`). -/
def bumpCount (l : List (PyVal × Nat)) (e : PyVal) : List (PyVal × Nat) :=
  if (l.find? (fun p => pyValBeq p.1 e)).isSome then
    l.map (fun p => if pyValBeq p.1 e then (p.1, p.2 + 1) else p)
  else l ++ [(e, 1)]

/-- The `epistemic_counts` accumulation (source lines 496-499). -/
def epistemicCounts (allResults : Batch) : Except String (List (PyVal × Nat)) :=
  allResults.foldlM (fun acc p => do
    let e ← pyGetItem p.2 "epistemic"
    pure (bumpCount acc e)) []

/-- Python `v.get('tier') == tier` where `tier` is an `int` (Python compares
`bool` to `int` numerically; any other value compares unequal). -/
def pyEqInt (v : Option PyVal) (t : Int) : Bool :=
  match v with
  | some (.int n) => n == t
  | some (.bool b) => (if b then (1 : Int) else 0) == t
  | _ => false

/-- The `tier_names` table of `run_master` (source lines 502-509). -/
def tierName (t : Nat) : String :=
  match t with
  | 0 => "Axiom Foundations"
  | 1 => "Gauge Group Selection"
  | 2 => "Particle Content"
  | 3 => "Continuous Constants / RG"
  | 4 => "Gravity + Dark Sector"
  | 5 => "Gamma_geo Closure"
  | _ => "Tier " ++ toString t

/-- Python `{k: v for k, v in all_results.items() if v.get('tier') == tier}`. -/
def tierMembers (allResults : Batch) (t : Nat) : Batch :=
  allResults.filter (fun p => pyEqInt (recGet p.2 "tier") (Int.ofNat t))

/-- The body of the `tier_stats` loop over a list of tier indices:
empty tiers get no entry; each non-empty tier contributes its name,
total, passed count and ordered member ids. -/
def tierStatsGo (allResults : Batch) : List Nat → Except String (List (Nat × TierStat))
  | [] => .ok []
  | t :: ts =>
    if (tierMembers allResults t).isEmpty then tierStatsGo allResults ts
    else do
      let pc ← countPassed ((tierMembers allResults t).map (fun p => p.2))
      let rest ← tierStatsGo allResults ts
      pure ((t, { name := tierName t
                  total := (tierMembers allResults t).length
                  passed := pc
                  theorems := (tierMembers allResults t).map (fun p => p.1) }) :: rest)

/-- The `tier_stats` loop (source lines 510-518): only tiers 0-5
(`for tier in range(6)`) are visited. -/
def tierStatsOf (allResults : Batch) : Except String (List (Nat × TierStat)) :=
  tierStatsGo allResults (List.range 6)

/-- Python `all_results[t]` as a record (`[]` stands in for a record that is
not present; the callers only index present ids). -/
def recOfB (allResults : Batch) (t : String) : Record :=
  ((allResults.find? (fun p => p.1 == t)).map (fun p => p.2)).getD []

/-- Python `all(all_results[t]['passed'] for t in ids)` over ids already
filtered to those present, with Python `all`'s short-circuit: a falsy
element stops evaluation before later lookups can raise. -/
def allTruthyPassed (allResults : Batch) : List String → Except String Bool
  | [] => .ok true
  | t :: rest => do
    let v ← pyGetItem (recOfB allResults t) "passed"
    if pyTruthy v then allTruthyPassed allResults rest else pure false

/-- The configured gauge-sector ids (source line 523). -/
def GAUGE_IDS : List String := ["T_channels", "T7", "T_gauge", "T5"]

/-- The configured RG-sector ids (source line 529). -/
def RG_IDS : List String := ["T20", "T21", "T22", "T23", "T24"]

/-- Python `t in all_results`. -/
def presentIn (allResults : Batch) (t : String) : Bool :=
  (allResults.find? (fun p => p.1 == t)).isSome

/-- Steps 7-9 of `run_master` (source lines 489-549): validate the
batch, compute counts, per-tier statistics and the three sector
verdicts.  `gravityAllPass` is `gravity_bundle['all_pass']`, produced
by the external gravity module and copied verbatim into the `gravity`
verdict (source line 526). -/
def run_master_stats (allResults : Batch) (gravityAllPass : Bool) :
    Except String MasterReport := do
  let depCheck ← validate_dependencies allResults
  let total := allResults.length
  let passed ← countPassed (allResults.map (fun p => p.2))
  let epi ← epistemicCounts allResults
  let tiers ← tierStatsOf allResults
  let gaugeOk ← allTruthyPassed allResults (GAUGE_IDS.filter (presentIn allResults))
  let rgOk ← allTruthyPassed allResults (RG_IDS.filter (presentIn allResults))
  pure { version := "3.5"
         date := "2026-02-07"
         total_theorems := total
         passed := passed
         all_pass := passed == total
         all_results := allResults
         epistemic_counts := epi
         tier_stats := tiers
         dependency_check := depCheck
         sector_verdicts := { gauge := gaugeOk, gravity := gravityAllPass, rg_mechanism := rgOk } }

/-!
## Report Exporter (`export_json`, source lines 843-961) and the gap
classifier it projects (`_classify_gap`, source lines 732-770).

The source serializes the report dict with `json.dumps`; the embedding
builds the report as a structured document (`ExportDoc`), whose
deterministic serialization is the function the claims quantify over.
-/

/-- The `closed` id set of `_classify_gap` (source lines 733-749). -/
def GAP_CLOSED : List String :=
  ["T0",
   "L_e*", "L_epsilon*", "L_ε*",
   "T_e", "T_epsilon", "T_ε",
   "T_eta", "T_η", "T_kappa", "T_κ", "T_M",
   "T1", "T2", "T3", "T4",
   "T5", "T_gauge",
   "T4E", "T4F", "T9", "T7", "T_channels", "T_field", "T_Higgs",
   "T19", "T20", "T21", "T22", "T23",
   "T24", "T25a", "T25b", "T26", "T27c", "T27d",
   "T_sin2theta",
   "T7B", "T_particle", "T8",
   "T12", "T12E",
   "Gamma_ordering", "Gamma_fbc", "Gamma_particle",
   "Gamma_continuum", "Gamma_closure",
   "T9_grav", "Gamma_signature"]

/-- The `imports` id set of `_classify_gap`. -/
def GAP_IMPORTS : List String := ["T6", "T6B"]

/-- The `open_physics` id set of `_classify_gap`. -/
def GAP_OPEN_PHYSICS : List String := ["T4G", "T4G_Q31", "T10", "T11"]

/-- The Greek-alias table of `_classify_gap` (source lines 756-761). -/
def GAP_ALIASES : List (String × String) :=
  [("L_ε*", "L_epsilon*"), ("L_e*", "L_epsilon*"),
   ("T_ε", "T_epsilon"), ("T_e", "T_epsilon"),
   ("T_η", "T_eta"), ("T_κ", "T_kappa")]

/-- Source `_classify_gap(tid)`. -/
def classify_gap (tid : String) : String :=
  let checkTid := ((GAP_ALIASES.find? (fun p => p.1 == tid)).map (fun p => p.2)).getD tid
  if GAP_CLOSED.contains checkTid then "closed"
  else if GAP_IMPORTS.contains checkTid then "import"
  else if GAP_OPEN_PHYSICS.contains checkTid then "open_physics"
  else "reduced"

/-- One row of the hard-coded predictions table.  `error_pct` is a
Python float literal, carried verbatim into the output; it is kept as
its decimal spelling (the engine never computes with it).  The JSON
key `theorem` is a Lean keyword and is spelled `theoremId` here. -/
structure Prediction where
  quantity : String
  predicted : String
  observed : String
  error_pct : String
  theoremId : String
  status : String
deriving Repr, DecidableEq

/-- The predictions table (source lines 847-864). -/
def PREDICTIONS : List Prediction :=
  [{ quantity := "sin²θ_W", predicted := "3/13 ≈ 0.23077", observed := "0.23122 ± 0.00003",
     error_pct := "0.19", theoremId := "T24", status := "derived" },
   { quantity := "Gauge group", predicted := "SU(3)×SU(2)×U(1)", observed := "SU(3)×SU(2)×U(1)",
     error_pct := "0.0", theoremId := "T_gauge", status := "exact" },
   { quantity := "Generations", predicted := "3", observed := "3",
     error_pct := "0.0", theoremId := "T7", status := "exact" },
   { quantity := "Spacetime dim", predicted := "4", observed := "4",
     error_pct := "0.0", theoremId := "T8", status := "exact" },
   { quantity := "Higgs exists", predicted := "Yes (massive scalar)", observed := "Yes (125 GeV)",
     error_pct := "0.0", theoremId := "T_Higgs", status := "exact" },
   { quantity := "DM exists", predicted := "Yes (geometric)", observed := "Yes (Ω_DM ≈ 0.26)",
     error_pct := "0.0", theoremId := "T12", status := "structural" },
   { quantity := "Λ > 0", predicted := "Yes (residual capacity)", observed := "Yes (Λ ≈ 10⁻¹²²)",
     error_pct := "0.0", theoremId := "T11", status := "structural" },
   { quantity := "f_b (baryon fraction)", predicted := "0.200", observed := "0.157",
     error_pct := "27.4", theoremId := "T12E", status := "structural" }]

/-- One row of the hard-coded audit-checks table. -/
structure AuditCheck where
  id : String
  check : String
  status : String
  severity : String
deriving Repr, DecidableEq

/-- The audit-checks table (source lines 867-887). -/
def AUDIT_CHECKS : List AuditCheck :=
  [{ id := "A01", check := "Circular imports in theorem chain", status := "FIXED", severity := "critical" },
   { id := "A02", check := "T26→T27d circular dependency", status := "FIXED", severity := "critical" },
   { id := "A03", check := "Stale P_structural labels (v3.6 upgrade)", status := "FIXED", severity := "high" },
   { id := "A04", check := "L_ε disambiguation", status := "FIXED", severity := "high" },
   { id := "A05", check := "T_sin2theta derivation chain", status := "FIXED", severity := "high" },
   { id := "A06", check := "Import-gated C_structural labels", status := "FIXED", severity := "medium" },
   { id := "A07", check := "Computational witnesses (V(Φ))", status := "ACTIVE", severity := "low" },
   { id := "A08", check := "Anomaly scan exhaustiveness", status := "ACTIVE", severity := "low" },
   { id := "A09", check := "Exit codes for CI", status := "ACTIVE", severity := "low" },
   { id := "A10", check := "JSON export completeness", status := "FIXED", severity := "medium" },
   { id := "A11", check := "Standalone module imports", status := "ACTIVE", severity := "low" },
   { id := "A12", check := "Unicode gap classifier aliases", status := "FIXED", severity := "medium" },
   { id := "A13", check := "Gamma_closure [P] depends on C_structural sub-theorem", status := "FIXED", severity := "high" },
   { id := "A14", check := "T6B sin²θ_W convergence gap (one-loop: 0.285 vs 0.231)", status := "FIXED", severity := "high" },
   { id := "A15", check := "T_sin2theta independent of T6 (verified: T6 not in dep chain)", status := "FIXED", severity := "critical" },
   { id := "A16", check := "C_structural -> P bridge upgrade (Lovelock + HKM pure math)", status := "FIXED", severity := "high" },
   { id := "A17", check := "T0 axiom witnesses integrated (superadditivity Δ=4, record-lock BFS)", status := "FIXED", severity := "medium" },
   { id := "A18", check := "T_field [C] -> [P_structural] via anomaly uniqueness derivation", status := "FIXED", severity := "critical" },
   { id := "A19", check := "T_channels→T_field cycle (dependency arrow flipped)", status := "FIXED", severity := "critical" }]

/-- One entry of the math-imports catalog. -/
structure MathImport where
  used_by : List String
  details : PyVal

/-- Python `details if isinstance(details, str) else details.get('statement',
str(details))`: values without `.get` raise `AttributeError`. -/
def importDetails : PyVal → Except String PyVal
  | .str s => .ok (.str s)
  | .dict d => .ok (((d.find? (fun p => p.1 == "statement")).map (fun p => p.2)).getD
      (.str (pyStr (.dict d))))
  | v => .error ("AttributeError: " ++ pyTypeShort v ++ " object has no attribute get")

/-- Append `tid` to the `used_by` of key `k`. -/
def addUsedBy (l : List (String × MathImport)) (k tid : String) : List (String × MathImport) :=
  l.map (fun p => if p.1 == k then (p.1, { p.2 with used_by := p.2.used_by ++ [tid] }) else p)

/-- The math-imports catalog loop (source lines 890-901): for each
record with a truthy `imported_theorems` dict, register each imported
theorem (details fixed at first occurrence) and append the record id to
its `used_by` list. -/
def mathImports (allResults : Batch) : Except String (List (String × MathImport)) :=
  allResults.foldlM (fun acc p => do
    let imp := recGetD p.2 "imported_theorems" (.dict [])
    if pyTruthy imp then
      match imp with
      | .dict items =>
          items.foldlM (fun acc kv => do
            let acc ← if (acc.find? (fun q => q.1 == kv.1)).isSome then pure acc
              else do
                let d ← importDetails kv.2
                pure (acc ++ [(kv.1, { used_by := [], details := d })])
            pure (addUsedBy acc kv.1 p.1)) acc
      | v => .error ("AttributeError: " ++ pyTypeShort v ++ " object has no attribute items")
    else pure acc) []

/-- The reason code a `P_structural` id receives (source lines
905-920). -/
def psReasonFor (tid : String) : String :=
  if GAP_OPEN_PHYSICS.contains tid then "open_physics"
  else if GAP_IMPORTS.contains tid then "qft_import"
  else if ["T12", "T12E"].contains tid then "regime_dependent"
  else if ["T_field"].contains tid then "rep_selection"
  else "other"

/-- The `p_structural_reasons` loop (source lines 903-920):
`r['epistemic'] == 'P_structural'` is a string comparison (false for
any non-string value). -/
def psReasons (allResults : Batch) : Except String (List (String × String)) :=
  allResults.foldlM (fun acc p => do
    let e ← pyGetItem p.2 "epistemic"
    match e with
    | .str s => pure (if s == "P_structural" then acc ++ [(p.1, psReasonFor p.1)] else acc)
    | _ => pure acc) []

/-- The per-record projection in `report['theorems']` (source lines
946-960). -/
structure TheoremEntry where
  name : PyVal
  tier : PyVal
  passed : PyVal
  epistemic : PyVal
  key_result : PyVal
  gap_type : String
  dependencies : PyVal
  imported_theorems : Option (List String)
  ps_reason : Option String

/-- The `dependency_check` projection in the export (source lines
931-935): issues truncated to the first 10. -/
structure DepCheckProj where
  valid : Bool
  cycles : Nat
  issues : List String
deriving Repr, DecidableEq

/-- The per-tier projection in the export (source lines 936-939). -/
structure TierProj where
  name : String
  passed : Nat
  total : Nat
deriving Repr, DecidableEq

/-- The structured document `export_json` serializes (source lines
923-961): field for field the `report` dict. -/
structure ExportDoc where
  version : String
  date : String
  total_theorems : Nat
  passed : Nat
  all_pass : Bool
  epistemic_counts : List (PyVal × Nat)
  sector_verdicts : SectorVerdicts
  dependency_check : DepCheckProj
  tier_stats : List (String × TierProj)
  predictions : List Prediction
  audit_checks : List AuditCheck
  math_imports : List (String × MathImport)
  p_structural_reasons : List (String × String)
  theorems : List (String × TheoremEntry)

/-- One entry of the `report['theorems']` loop (source lines 946-960).
`r['name']`, `r['passed']`, `r['epistemic']` raise on absence;
`imported_theorems` keys are listed only when the field is truthy. -/
def theoremEntryOf (ps : List (String × String)) (tid : String) (r : Record) :
    Except String TheoremEntry := do
  let nm ← pyGetItem r "name"
  let pv ← pyGetItem r "passed"
  let ev ← pyGetItem r "epistemic"
  let impRaw := recGetD r "imported_theorems" .none
  let imp ← if pyTruthy impRaw then
      match impRaw with
      | .dict items => pure (some (items.map (fun q => q.1)))
      | v => Except.error ("AttributeError: " ++ pyTypeShort v ++ " object has no attribute keys")
    else pure Option.none
  pure { name := nm
         tier := recGetD r "tier" (.int (-1))
         passed := pv
         epistemic := ev
         key_result := recGetD r "key_result" (.str "")
         gap_type := classify_gap tid
         dependencies := recGetD r "dependencies" (.list [])
         imported_theorems := imp
         ps_reason := (ps.find? (fun q => q.1 == tid)).map (fun q => q.2) }

/-- Source `export_json(master)`: assemble the dashboard document.  The
source's final `json.dumps(report, indent=2)` is a deterministic
serialization of this structure. -/
def export_json (master : MasterReport) : Except String ExportDoc := do
  let imports ← mathImports master.all_results
  let ps ← psReasons master.all_results
  let thms ← master.all_results.foldlM (fun acc p => do
    let e ← theoremEntryOf ps p.1 p.2
    pure (acc ++ [(p.1, e)])) []
  pure { version := master.version
         date := master.date
         total_theorems := master.total_theorems
         passed := master.passed
         all_pass := master.all_pass
         epistemic_counts := master.epistemic_counts
         sector_verdicts := master.sector_verdicts
         dependency_check := { valid := master.dependency_check.valid
                               cycles := master.dependency_check.cycles_found
                               issues := master.dependency_check.issues.take 10 }
         tier_stats := master.tier_stats.map (fun p =>
           (toString p.1, { name := p.2.name, passed := p.2.passed, total := p.2.total }))
         predictions := PREDICTIONS
         audit_checks := AUDIT_CHECKS
         math_imports := imports
         p_structural_reasons := ps
         theorems := thms }

/-!
## Specification-side definitions and concrete inputs

The `spec*` definitions below follow the specification's wording (for
comparison against the embedded code); the `c*Batch` values are the
concrete inputs the claims are settled on.
-/

/-- Written from the spec: a reference is known iff it equals some
claim id, some axiom id, or some known-external string. -/
def specKnownRef (claimIds : List String) (x : String) : Prop :=
  x ∈ claimIds ∨ x ∈ AXIOMS ∨ x ∈ KNOWN_EXTERNALS

/-- Written from the spec: the reference with everything from the
first `(` stripped and whitespace trimmed. -/
def specStripParenSuffix (dep : String) : String :=
  strTrim (String.mk (dep.data.takeWhile (fun c => c ≠ '(')))

/-- Written from the spec: a reference is unresolved iff its raw form
is not known, its stripped-and-trimmed form is not known, and it does
not literally start with any axiom identifier. -/
def specUnresolved (claimIds : List String) (dep : String) : Prop :=
  ¬ specKnownRef claimIds dep ∧
  ¬ specKnownRef claimIds (specStripParenSuffix dep) ∧
  ¬ ∃ a ∈ AXIOMS, strStartsWith dep a = true

/-- Written from the spec: a sector verdict is the logical AND of the
`passed` field over the configured ids restricted to ids present in
the batch (absent ids skipped; vacuously true). -/
def sectorVerdictSpec (b : Batch) (ids : List String) : Bool :=
  (ids.filter (presentIn b)).all
    (fun t => pyTruthy ((recGet (recOfB b t) "passed").getD .none))

/-- Pure count of records whose `passed` field is truthy (the value a
successful `countPassed` run returns). -/
def countPassedSpec (rs : List Record) : Nat :=
  rs.countP (fun r => pyTruthy ((recGet r "passed").getD .none))

/-- Recognizer for the collective missing-fields issue. -/
def isMissingIssue : SchemaIssue → Bool
  | .missingFields _ => true
  | _ => false

/-- Written from the spec: no schema check fails on the record. -/
def schemaCleanSpec (r : Record) : Prop :=
  missingRequired r = [] ∧
  isBoolVal ((recGet r "passed").getD .none) = true ∧
  isListVal (recGetD r "dependencies" (.list [])) = true ∧
  epistemicOk ((recGet r "epistemic").getD .none) = true

/-- A well-formed record: all required fields, boolean `passed`,
epistemic tag `P`, string dependencies. -/
def mkFullRec (nm : String) (tier : Int) (passed : Bool) (deps : List String) : Record :=
  [("name", .str nm), ("tier", .int tier), ("passed", .bool passed),
   ("epistemic", .str "P"), ("summary", .str ""), ("key_result", .str ""),
   ("dependencies", .list (deps.map PyVal.str))]

/-- Scenario-2 batch: `A` depends on `B` and `B` depends on `A`, both
otherwise well-formed. -/
def c6Batch : Batch := [("A", mkFullRec "A" 1 true ["B"]), ("B", mkFullRec "B" 1 true ["A"])]

/-- The report `validate_dependencies` produces on `c6Batch`. -/
def c6DepReport : DepReport :=
  { valid := false
    issues := ["CIRCULAR DEPENDENCIES: ['A -> B -> A']"]
    total_checked := 2
    cycles_found := 1 }

/-- A graph with two distinct directed cycles sharing node `D`:
`A -> B -> D -> A` and `A -> C -> D -> A`. -/
def c1Batch : Batch :=
  [("A", [("dependencies", PyVal.list [.str "B", .str "C"])]),
   ("B", [("dependencies", PyVal.list [.str "D"])]),
   ("C", [("dependencies", PyVal.list [.str "D"])]),
   ("D", [("dependencies", PyVal.list [.str "A"])])]

/-- A batch whose single record carries a non-sequence `dependencies`
value (the int `5`). -/
def c2Batch : Batch :=
  [("A", [("name", .str "A"), ("tier", .int 0), ("passed", .bool true),
          ("epistemic", .str "P"), ("summary", .str ""), ("key_result", .str ""),
          ("dependencies", .int 5)])]

/-- A batch whose single well-formed record sits in tier 7. -/
def c5xBatch : Batch := [("X", mkFullRec "X" 7 true [])]

/-- A batch with one well-formed tier-1 record. -/
def c5wBatch : Batch := [("A", mkFullRec "A" 1 true [])]

/-- A batch containing one configured gauge-sector id. -/
def c4wBatch : Batch := [("T7", mkFullRec "T7" 1 true [])]

/-- Fallback report used only to totalize extraction from `Except`. -/
def emptyMasterReport : MasterReport :=
  { version := "", date := "", total_theorems := 0, passed := 0, all_pass := false,
    all_results := [], epistemic_counts := [], tier_stats := [],
    dependency_check := { valid := true, issues := [], total_checked := 0, cycles_found := 0 },
    sector_verdicts := { gauge := true, gravity := true, rg_mechanism := true } }

/-- The master report of a successful `run_master_stats` run. -/
def reportOf (b : Batch) (g : Bool) : MasterReport :=
  match run_master_stats b g with
  | .ok r => r
  | .error _ => emptyMasterReport

/-- Fallback document used only to totalize extraction from `Except`. -/
def emptyExportDoc : ExportDoc :=
  { version := "", date := "", total_theorems := 0, passed := 0, all_pass := false,
    epistemic_counts := [], sector_verdicts := { gauge := true, gravity := true, rg_mechanism := true },
    dependency_check := { valid := true, cycles := 0, issues := [] },
    tier_stats := [], predictions := [], audit_checks := [], math_imports := [],
    p_structural_reasons := [], theorems := [] }

/-- The export document of a successful `export_json` run. -/
def docOf (m : MasterReport) : ExportDoc :=
  match export_json m with
  | .ok d => d
  | .error _ => emptyExportDoc

/-- The tier-stats entry a non-empty tier `t` receives (values as the
specification describes them: total count, passed count, ordered
member ids). -/
def tierEntryOf (b : Batch) (t : Nat) : Nat × TierStat :=
  (t, { name := tierName t
        total := (tierMembers b t).length
        passed := countPassedSpec ((tierMembers b t).map (fun p => p.2))
        theorems := (tierMembers b t).map (fun p => p.1) })

/-!
## Theorems
-/

/-- Helper: the fields of any successful `validate_dependencies` run,
in terms of its two phases. -/
theorem validate_dependencies_ok_fields (b : Batch) (rep : DepReport)
    (h : validate_dependencies b = .ok rep) :
    rep.valid = (rep.issues.length == 0) ∧ (rep.cycles_found ≠ 0 → rep.issues ≠ []) := by
  unfold validate_dependencies at h
  cases hi : recordIssuesPhase b with
  | error e =>
      rw [hi] at h
      simp [Bind.bind, Except.bind] at h
  | ok base =>
      rw [hi] at h
      simp only [Bind.bind, Except.bind] at h
      cases hc : detect_cycles b AXIOMS with
      | error e =>
          rw [hc] at h
          simp [Bind.bind, Except.bind, Functor.map, Except.map] at h
      | ok cycles =>
          rw [hc] at h
          simp only [Bind.bind, Except.bind, Functor.map, Except.map, pure, Except.pure,
            Except.ok.injEq] at h
          subst h
          refine ⟨rfl, ?_⟩
          intro hcy
          have hne : cycles ≠ [] := by
            intro hnil
            exact hcy (by simp [hnil])
          have : cycles.isEmpty = false := by
            cases cycles with
            | nil => exact absurd rfl hne
            | cons a l => rfl
          simp only [this, Bool.false_eq_true, if_false]
          simp

/-- C6: on the two-record batch where `A` depends on `['B']` and `B`
depends on `['A']` (both otherwise well-formed), `validate_dependencies`
returns `valid=false`, `cycles_found=1` and exactly one issue, the
`A -> B -> A` chain; and in general a successful run is `valid` iff its
issue list is empty. -/
theorem c6_scenario2_and_valid_iff :
    validate_dependencies c6Batch = .ok c6DepReport ∧
    (∀ (b : Batch) (rep : DepReport), validate_dependencies b = .ok rep →
      (rep.valid = true ↔ rep.issues = [])) := by
  constructor
  · rfl
  · intro b rep h
    have hf := (validate_dependencies_ok_fields b rep h).1
    rw [hf]
    simp [List.length_eq_zero]

/-- C6 witness: the general valid-iff-no-issues equivalence evaluated
on the scenario-2 batch. -/
theorem c6_scenario2_witness :
    c6DepReport.valid = true ↔ c6DepReport.issues = [] :=
  c6_scenario2_and_valid_iff.2 c6Batch c6DepReport c6_scenario2_and_valid_iff.1

/-- C9: whenever a successful `validate_dependencies` run finds at
least one cycle, the report is not valid: the cycle summary is itself
an issue, so a cyclic ledger can never be reported valid. -/
theorem c9_cycles_imply_invalid (b : Batch) (rep : DepReport)
    (h : validate_dependencies b = .ok rep) (hcy : 0 < rep.cycles_found) :
    rep.valid = false := by
  obtain ⟨hv, hi⟩ := validate_dependencies_ok_fields b rep h
  have hne : rep.issues ≠ [] := hi (by omega)
  rw [hv]
  cases hval : rep.issues with
  | nil => exact absurd hval hne
  | cons a l => simp [hval]

/-- C9 witness: the cyclic scenario-2 batch, where `cycles_found = 1`
forces `valid = false`. -/
theorem c9_cycles_witness :
    0 < c6DepReport.cycles_found ∧ c6DepReport.valid = false :=
  ⟨by decide, c9_cycles_imply_invalid c6Batch c6DepReport rfl (by decide)⟩

/-- C1 counterexample: the dependency graph of `c1Batch` contains the
two distinct directed cycles `A -> B -> D -> A` and `A -> C -> D -> A`
(its edges are `A→B, A→C, B→D, C→D, D→A`), yet `_detect_cycles`
returns only the single description `A -> B -> D -> A`: the second
cycle is never reported because `D` is already black when the DFS
reaches it through `C`. -/
theorem c1_two_cycles_counterexample :
    buildGraph c1Batch AXIOMS =
      .ok [("A", ["B", "C"]), ("B", ["D"]), ("C", ["D"]), ("D", ["A"])] ∧
    detect_cycles c1Batch AXIOMS = .ok ["A -> B -> D -> A"] ∧
    "A -> C -> D -> A" ∉ ["A -> B -> D -> A"] :=
  ⟨rfl, rfl, by decide⟩

/-- C1 amended: on the shared-node two-cycle graph, `_detect_cycles`
reports exactly one cycle description, the first one the DFS closes;
cycle instances through an already fully-explored node are not
reported separately. -/
theorem c1_amended_first_cycle_only :
    detect_cycles c1Batch AXIOMS = .ok ["A -> B -> D -> A"] := rfl

/-- C2: `validate_dependencies` raises (rather than collecting an
issue and completing the report) on a batch containing a record whose
`dependencies` value is the integer `5`: iterating it raises
`TypeError`, even though `_verify_schema` had just recorded the
non-list `dependencies` as a collectable issue. -/
theorem c2_nonlist_dependencies_raises :
    validate_dependencies c2Batch =
      .error "TypeError: 'int' object is not iterable" := rfl

/-- C7: `_verify_schema` is total (written as a Lean function it never
raises and always returns a list); when required fields are missing
the result is non-empty and contains exactly one collective
missing-fields issue naming exactly the missing fields; when no check
fails the result is empty. -/
theorem c7_schema_missing_fields (r : Record) :
    (missingRequired r ≠ [] →
      verify_schema r ≠ [] ∧
      (verify_schema r).filter isMissingIssue =
        [SchemaIssue.missingFields (missingRequired r)]) ∧
    (schemaCleanSpec r → verify_schema r = []) := by
  constructor
  · intro hm
    have hne : (missingRequired r).isEmpty = false := by
      cases h : missingRequired r with
      | nil => exact absurd h hm
      | cons a l => rfl
    constructor
    · simp [verify_schema, hne]
    · simp only [verify_schema, hne, Bool.false_eq_true, if_false, List.filter_append]
      split_ifs <;> simp [isMissingIssue]
  · rintro ⟨h1, h2, h3, h4⟩
    simp [verify_schema, h1, h2, h3, h4]

/-- C7 witness: the empty record, missing all seven required fields. -/
theorem c7_schema_witness :
    verify_schema ([] : Record) ≠ [] ∧
    (verify_schema ([] : Record)).filter isMissingIssue =
      [SchemaIssue.missingFields (missingRequired ([] : Record))] :=
  (c7_schema_missing_fields ([] : Record)).1 (by decide)

/-- C10: the type and enum checks run on the absent value: a record
missing `passed` gets both the missing-fields issue and the
passed-must-be-bool issue (on `None`), a record missing `epistemic`
gets both the missing-fields issue and the unknown-tag issue naming
`None`, and the empty record gets exactly three schema issues. -/
theorem c10_absent_field_checks (r : Record) :
    (recGet r "passed" = Option.none →
      SchemaIssue.passedNotBool .none ∈ verify_schema r ∧
      SchemaIssue.missingFields (missingRequired r) ∈ verify_schema r ∧
      "passed" ∈ missingRequired r) ∧
    (recGet r "epistemic" = Option.none →
      SchemaIssue.unknownEpistemic .none ∈ verify_schema r ∧
      SchemaIssue.missingFields (missingRequired r) ∈ verify_schema r ∧
      "epistemic" ∈ missingRequired r) ∧
    verify_schema ([] : Record) =
      [SchemaIssue.missingFields REQUIRED_FIELDS,
       SchemaIssue.passedNotBool .none, SchemaIssue.unknownEpistemic .none] := by
  refine ⟨?_, ?_, rfl⟩
  · intro h
    have hmem : "passed" ∈ missingRequired r := by
      simp [missingRequired, List.mem_filter, h, REQUIRED_FIELDS]
    have hne : (missingRequired r).isEmpty = false := by
      cases hc : missingRequired r with
      | nil => rw [hc] at hmem; exact absurd hmem (by simp)
      | cons a l => rfl
    refine ⟨?_, ?_, hmem⟩
    · simp [verify_schema, h, isBoolVal, hne]
    · simp [verify_schema, hne]
  · intro h
    have hmem : "epistemic" ∈ missingRequired r := by
      simp [missingRequired, List.mem_filter, h, REQUIRED_FIELDS]
    have hne : (missingRequired r).isEmpty = false := by
      cases hc : missingRequired r with
      | nil => rw [hc] at hmem; exact absurd hmem (by simp)
      | cons a l => rfl
    refine ⟨?_, ?_, hmem⟩
    · simp [verify_schema, h, epistemicOk, hne]
    · simp [verify_schema, hne]

/-- C10 witness: the empty record exhibits all three issues at once. -/
theorem c10_absent_field_witness :
    SchemaIssue.passedNotBool .none ∈ verify_schema ([] : Record) ∧
    SchemaIssue.unknownEpistemic .none ∈ verify_schema ([] : Record) :=
  ⟨((c10_absent_field_checks ([] : Record)).1 rfl).1,
   ((c10_absent_field_checks ([] : Record)).2.1 rfl).1⟩

/-- Helper: `List.contains` is membership (over strings). -/
theorem strList_contains_iff (l : List String) (a : String) :
    l.contains a = true ↔ a ∈ l := by
  simp

/-- Helper: the per-reference check fires exactly when all three
boolean guards are false. -/
theorem refIssue_eq_some_iff (k : List String) (tid dep : String) :
    refIssue k tid dep = some (refCheckMsg tid dep) ↔
    (k.contains (splitParenStrip dep) = false ∧ k.contains dep = false ∧
      (AXIOMS.any fun a => strStartsWith dep a) = false) := by
  unfold refIssue
  cases hca : k.contains (splitParenStrip dep) <;>
    cases hcd : k.contains dep <;>
      cases hax : AXIOMS.any (fun a => strStartsWith dep a) <;>
        simp only [hca, hcd, hax, Bool.not_false, Bool.not_true, Bool.and_self,
          Bool.and_false, Bool.false_and, if_true, if_false, Bool.false_eq_true,
          Bool.true_eq_false, and_self, and_false, false_and, iff_true, iff_false] <;>
        simp

/-- C3: inside `validate_dependencies`, the per-reference check
reports record `tid`'s reference `dep` as unresolved if and only if
the raw reference is not a known id, its parenthetical-stripped and
trimmed form is not a known id, and the raw reference does not start
with any axiom identifier (so any reference beginning with an axiom id
such as `A1` is always accepted). -/
theorem c3_unresolved_iff (b : Batch) (tid dep : String) :
    refIssue (validateKnownIds b) tid dep = some (refCheckMsg tid dep) ↔
    specUnresolved (b.map (fun p => p.1)) dep := by
  have hstrip : specStripParenSuffix dep = splitParenStrip dep := rfl
  rw [refIssue_eq_some_iff]
  unfold specUnresolved specKnownRef
  rw [hstrip]
  have hmem1 := strList_contains_iff (validateKnownIds b) (splitParenStrip dep)
  have hmem2 := strList_contains_iff (validateKnownIds b) dep
  have hany : (AXIOMS.any fun a => strStartsWith dep a) = true ↔
      ∃ a ∈ AXIOMS, strStartsWith dep a = true := List.any_eq_true
  have hk : ∀ x, x ∈ validateKnownIds b ↔
      (x ∈ b.map (fun p => p.1) ∨ x ∈ AXIOMS ∨ x ∈ KNOWN_EXTERNALS) := by
    intro x
    unfold validateKnownIds
    simp [List.mem_append, or_assoc]
  constructor
  · rintro ⟨h1, h2, h3⟩
    refine ⟨fun hm => ?_, fun hm => ?_, fun hm => ?_⟩
    · exact (Bool.eq_false_iff.mp h2) (hmem2.mpr ((hk dep).mpr hm))
    · exact (Bool.eq_false_iff.mp h1) (hmem1.mpr ((hk (splitParenStrip dep)).mpr hm))
    · exact (Bool.eq_false_iff.mp h3) (hany.mpr hm)
  · rintro ⟨hs1, hs2, hs3⟩
    refine ⟨?_, ?_, ?_⟩
    · rw [Bool.eq_false_iff]
      intro hc
      exact hs2 ((hk _).mp (hmem1.mp hc))
    · rw [Bool.eq_false_iff]
      intro hc
      exact hs1 ((hk _).mp (hmem2.mp hc))
    · rw [Bool.eq_false_iff]
      intro hc
      exact hs3 (hany.mp hc)

/-- C3 witness: the unknown reference `UNKNOWN_REF` of record `A` in
the empty batch is reported; the specification-side conditions hold
for it. -/
theorem c3_unresolved_witness :
    refIssue (validateKnownIds []) "A" "UNKNOWN_REF" =
      some (refCheckMsg "A" "UNKNOWN_REF") :=
  (c3_unresolved_iff [] "A" "UNKNOWN_REF").mpr
    (by unfold specUnresolved specKnownRef; refine ⟨?_, ?_, ?_⟩ <;> decide)

/-- Helper: a successful sector-verdict fold computes exactly the AND
of `passed`-truthiness over its id list. -/
theorem allTruthyPassed_ok (b : Batch) :
    ∀ (l : List String) (v : Bool), allTruthyPassed b l = .ok v →
    v = l.all (fun t => pyTruthy ((recGet (recOfB b t) "passed").getD .none)) := by
  intro l
  induction l with
  | nil =>
      intro v h
      simp only [allTruthyPassed, Except.ok.injEq] at h
      simp [← h]
  | cons t rest ih =>
      intro v h
      unfold allTruthyPassed at h
      cases hg : recGet (recOfB b t) "passed" with
      | none =>
          rw [show pyGetItem (recOfB b t) "passed" = .error ("KeyError: " ++ "passed") from by
            unfold pyGetItem; rw [hg]] at h
          simp [Bind.bind, Except.bind] at h
      | some pv =>
          rw [show pyGetItem (recOfB b t) "passed" = .ok pv from by
            unfold pyGetItem; rw [hg]] at h
          simp only [Bind.bind, Except.bind] at h
          cases htv : pyTruthy pv with
          | true =>
              rw [htv] at h
              simp only [if_true] at h
              have := ih v h
              simp [List.all_cons, hg, htv, this]
          | false =>
              rw [htv] at h
              simp only [Bool.false_eq_true, if_false, pure, Except.pure, Except.ok.injEq] at h
              simp [List.all_cons, hg, htv, ← h]

/-- Helper: the fields of any successful `run_master_stats` run, in
terms of its component computations. -/
theorem run_master_stats_ok_fields (b : Batch) (g : Bool) (rep : MasterReport)
    (h : run_master_stats b g = .ok rep) :
    rep.all_results = b ∧
    rep.sector_verdicts.gravity = g ∧
    (∃ gv, allTruthyPassed b (GAUGE_IDS.filter (presentIn b)) = .ok gv ∧
      rep.sector_verdicts.gauge = gv) ∧
    (∃ rv, allTruthyPassed b (RG_IDS.filter (presentIn b)) = .ok rv ∧
      rep.sector_verdicts.rg_mechanism = rv) ∧
    (∃ ts, tierStatsOf b = .ok ts ∧ rep.tier_stats = ts) := by
  unfold run_master_stats at h
  cases h1 : validate_dependencies b with
  | error e => rw [h1] at h; simp [Bind.bind, Except.bind] at h
  | ok dc =>
  rw [h1] at h
  simp only [Bind.bind, Except.bind] at h
  cases h2 : countPassed (b.map (fun p => p.2)) with
  | error e => rw [h2] at h; simp [Bind.bind, Except.bind] at h
  | ok passed =>
  rw [h2] at h
  simp only [Bind.bind, Except.bind] at h
  cases h3 : epistemicCounts b with
  | error e => rw [h3] at h; simp [Bind.bind, Except.bind] at h
  | ok epi =>
  rw [h3] at h
  simp only [Bind.bind, Except.bind] at h
  cases h4 : tierStatsOf b with
  | error e => rw [h4] at h; simp [Bind.bind, Except.bind] at h
  | ok ts =>
  rw [h4] at h
  simp only [Bind.bind, Except.bind] at h
  cases h5 : allTruthyPassed b (GAUGE_IDS.filter (presentIn b)) with
  | error e => rw [h5] at h; simp [Bind.bind, Except.bind, Functor.map, Except.map] at h
  | ok gv =>
  rw [h5] at h
  simp only [Bind.bind, Except.bind] at h
  cases h6 : allTruthyPassed b (RG_IDS.filter (presentIn b)) with
  | error e => rw [h6] at h; simp [Bind.bind, Except.bind, Functor.map, Except.map] at h
  | ok rv =>
  rw [h6] at h
  simp only [Bind.bind, Except.bind, Functor.map, Except.map, pure, Except.pure,
    Except.ok.injEq] at h
  subst h
  exact ⟨rfl, rfl, ⟨gv, rfl, rfl⟩, ⟨rv, rfl, rfl⟩, ⟨ts, rfl, rfl⟩⟩

/-- C4 counterexample: two master runs over the identical (empty)
batch in which the external gravity bundle's `all_pass` flag differs
produce identical `all_results` but different `gravity` verdicts — so
the `gravity` sector verdict is not a function of the batch at all,
hence not the AND of `passed` over any configured id subset of the
batch. -/
theorem c4_gravity_counterexample :
    Except.map (fun r => r.all_results) (run_master_stats [] true) =
      Except.map (fun r => r.all_results) (run_master_stats [] false) ∧
    Except.map (fun r => r.sector_verdicts.gravity) (run_master_stats [] true) ≠
      Except.map (fun r => r.sector_verdicts.gravity) (run_master_stats [] false) :=
  ⟨rfl, by decide⟩

/-- C4 amended: the `gauge` and `rg_mechanism` verdicts equal the AND
of `passed` over their configured id subsets restricted to ids present
in the batch (ids absent are skipped, and a sector with none of its
ids present is vacuously true); the `gravity` verdict is instead
copied verbatim from the external gravity bundle's `all_pass` flag. -/
theorem c4_amended_sector_verdicts (b : Batch) (g : Bool) (rep : MasterReport)
    (h : run_master_stats b g = .ok rep) :
    rep.sector_verdicts.gauge = sectorVerdictSpec b GAUGE_IDS ∧
    rep.sector_verdicts.rg_mechanism = sectorVerdictSpec b RG_IDS ∧
    ((∀ t ∈ GAUGE_IDS, presentIn b t = false) → rep.sector_verdicts.gauge = true) ∧
    ((∀ t ∈ RG_IDS, presentIn b t = false) → rep.sector_verdicts.rg_mechanism = true) ∧
    rep.sector_verdicts.gravity = g := by
  obtain ⟨-, hgr, ⟨gv, hgv, hge⟩, ⟨rv, hrv, hre⟩, -⟩ :=
    run_master_stats_ok_fields b g rep h
  have e1 : rep.sector_verdicts.gauge = sectorVerdictSpec b GAUGE_IDS := by
    rw [hge, allTruthyPassed_ok b _ gv hgv]
    rfl
  have e2 : rep.sector_verdicts.rg_mechanism = sectorVerdictSpec b RG_IDS := by
    rw [hre, allTruthyPassed_ok b _ rv hrv]
    rfl
  refine ⟨e1, e2, ?_, ?_, hgr⟩
  · intro hnone
    rw [e1]
    unfold sectorVerdictSpec
    have hf : GAUGE_IDS.filter (presentIn b) = [] :=
      List.filter_eq_nil_iff.mpr (fun a ha => by simp [hnone a ha])
    rw [hf]
    rfl
  · intro hnone
    rw [e2]
    unfold sectorVerdictSpec
    have hf : RG_IDS.filter (presentIn b) = [] :=
      List.filter_eq_nil_iff.mpr (fun a ha => by simp [hnone a ha])
    rw [hf]
    rfl

/-- C4 witness: a batch containing the configured gauge id `T7`
(passing), evaluated through the amended statement. -/
theorem c4_sector_witness :
    (reportOf c4wBatch true).sector_verdicts.gauge = sectorVerdictSpec c4wBatch GAUGE_IDS ∧
    sectorVerdictSpec c4wBatch GAUGE_IDS = true :=
  ⟨(c4_amended_sector_verdicts c4wBatch true (reportOf c4wBatch true) rfl).1, by decide⟩

/-- Helper: a successful `countPassed` run returns the truthy-`passed`
count. -/
theorem countPassed_ok : ∀ (rs : List Record) (n : Nat),
    countPassed rs = .ok n → n = countPassedSpec rs := by
  intro rs
  induction rs with
  | nil =>
      intro n h
      simp only [countPassed, Except.ok.injEq] at h
      simp [← h, countPassedSpec]
  | cons r rest ih =>
      intro n h
      unfold countPassed at h
      cases hg : recGet r "passed" with
      | none =>
          rw [show pyGetItem r "passed" = .error ("KeyError: " ++ "passed") from by
            unfold pyGetItem; rw [hg]] at h
          simp [Bind.bind, Except.bind] at h
      | some pv =>
          rw [show pyGetItem r "passed" = .ok pv from by unfold pyGetItem; rw [hg]] at h
          simp only [Bind.bind, Except.bind] at h
          cases hc : countPassed rest with
          | error e => rw [hc] at h; simp [Bind.bind, Except.bind] at h
          | ok c =>
              rw [hc] at h
              simp only [Bind.bind, Except.bind, Functor.map, Except.map, pure, Except.pure,
                Except.ok.injEq] at h
              have := ih c hc
              subst this
              simp only [countPassedSpec, List.countP_cons, hg, ← h]
              cases htv : pyTruthy pv <;> simp [htv, countPassedSpec, Nat.add_comm]

/-- Helper: a successful tier-stats run lists exactly the non-empty
tiers among the visited indices, in order, with the spec-side entry. -/
theorem tierStatsGo_ok (b : Batch) : ∀ (l : List Nat) (ts : List (Nat × TierStat)),
    tierStatsGo b l = .ok ts →
    ts = l.filterMap (fun t =>
      if (tierMembers b t).isEmpty then Option.none else some (tierEntryOf b t)) := by
  intro l
  induction l with
  | nil =>
      intro ts h
      simp only [tierStatsGo, Except.ok.injEq] at h
      simp [← h]
  | cons t rest ih =>
      intro ts h
      unfold tierStatsGo at h
      cases he : (tierMembers b t).isEmpty with
      | true =>
          rw [he] at h
          simp only [if_true] at h
          rw [List.filterMap_cons]
          simp [he, ih ts h]
      | false =>
          rw [he] at h
          simp only [Bool.false_eq_true, if_false] at h
          cases hc : countPassed ((tierMembers b t).map (fun p => p.2)) with
          | error e => rw [hc] at h; simp [Bind.bind, Except.bind] at h
          | ok pc =>
              rw [hc] at h
              simp only [Bind.bind, Except.bind] at h
              cases hr : tierStatsGo b rest with
              | error e => rw [hr] at h; simp [Bind.bind, Except.bind] at h
              | ok rest2 =>
                  rw [hr] at h
                  simp only [Bind.bind, Except.bind, Functor.map, Except.map, pure,
                    Except.pure, Except.ok.injEq] at h
                  have hpc := countPassed_ok _ pc hc
                  subst hpc
                  rw [List.filterMap_cons]
                  simp [he, ← h, ih rest2 hr, tierEntryOf]

/-- C5 counterexample: a batch whose only record sits in tier 7 — a
non-empty tier — yet the master report's `tier_stats` is empty,
because `run_master` only visits `range(6)`. -/
theorem c5_tier7_counterexample :
    0 < (tierMembers c5xBatch 7).length ∧
    Except.map (fun r => r.tier_stats) (run_master_stats c5xBatch true) = .ok [] :=
  ⟨by decide, rfl⟩

/-- C5 amended: the per-tier aggregation covers the tier values 0-5
only: every non-empty tier `t < 6` gets an entry with its name, total
count, truthy-`passed` count and member ids in batch insertion order,
and no tier value `≥ 6` ever appears in `tier_stats` (records in such
tiers are silently omitted). -/
theorem c5_amended_tier_stats (b : Batch) (g : Bool) (rep : MasterReport) (t : Nat)
    (h : run_master_stats b g = .ok rep) :
    (t < 6 → 0 < (tierMembers b t).length → tierEntryOf b t ∈ rep.tier_stats) ∧
    (6 ≤ t → ∀ s, (t, s) ∉ rep.tier_stats) := by
  obtain ⟨-, -, -, -, ⟨ts, hts, hre⟩⟩ := run_master_stats_ok_fields b g rep h
  have hchar := tierStatsGo_ok b (List.range 6) ts hts
  constructor
  · intro hlt hpos
    rw [hre, hchar]
    apply List.mem_filterMap.mpr
    refine ⟨t, List.mem_range.mpr hlt, ?_⟩
    have hne : (tierMembers b t).isEmpty = false := by
      cases hm : tierMembers b t with
      | nil => rw [hm] at hpos; simp at hpos
      | cons a l => rfl
    simp [hne]
  · intro hge s hmem
    rw [hre, hchar] at hmem
    obtain ⟨a, ha, hfa⟩ := List.mem_filterMap.mp hmem
    by_cases he : (tierMembers b a).isEmpty = true
    · rw [if_pos he] at hfa
      cases hfa
    · rw [if_neg he] at hfa
      injection hfa with h2
      have ha2 : a = t := by
        have := congrArg Prod.fst h2
        simpa [tierEntryOf] using this
      have hlt := List.mem_range.mp ha
      omega

/-- C5 witness: a tier-1 record produces the expected tier-1 entry. -/
theorem c5_tier_witness :
    tierEntryOf c5wBatch 1 ∈ (reportOf c5wBatch true).tier_stats :=
  (c5_amended_tier_stats c5wBatch true (reportOf c5wBatch true) 1 rfl).1
    (by decide) (by decide)

/-- Helper: a bound `Except` computation succeeds iff both stages
succeed. -/
theorem except_bind_ok {e a b : Type} (x : Except e a) (f : a → Except e b) (r : b) :
    (x >>= f) = .ok r ↔ ∃ v, x = .ok v ∧ f v = .ok r := by
  cases x <;> simp [Bind.bind, Except.bind]

/-- Helper: a mapped `Except` computation succeeds iff the inner one
does. -/
theorem except_map_ok {e a b : Type} (x : Except e a) (f : a → b) (r : b) :
    (f <$> x) = .ok r ↔ ∃ v, x = .ok v ∧ f v = r := by
  cases x <;> simp [Functor.map, Except.map]

/-- C8: the validate-aggregate-export pipeline is a pure function of
the batch and the gravity flag (two runs on the same input are
identical), and the exported `dependency_check.issues` is the first-10
prefix of the validation report's issues. -/
theorem c8_export_deterministic_truncated :
    (∀ (b : Batch) (g : Bool),
      (run_master_stats b g >>= export_json) = (run_master_stats b g >>= export_json)) ∧
    (∀ (rep : MasterReport) (doc : ExportDoc), export_json rep = .ok doc →
      doc.dependency_check.issues = rep.dependency_check.issues.take 10) := by
  refine ⟨fun b g => rfl, ?_⟩
  intro rep doc h
  unfold export_json at h
  obtain ⟨imports, h1, h⟩ := (except_bind_ok _ _ _).mp h
  obtain ⟨ps, h2, h⟩ := (except_bind_ok _ _ _).mp h
  obtain ⟨thms, h3, h⟩ := (except_map_ok _ _ _).mp h
  subst h
  rfl

/-- C8 witness: pipeline on a concrete one-record batch; the exported
issue list is the 10-prefix of the validation issues. -/
theorem c8_export_witness :
    (docOf (reportOf c5wBatch true)).dependency_check.issues =
      (reportOf c5wBatch true).dependency_check.issues.take 10 :=
  c8_export_deterministic_truncated.2 (reportOf c5wBatch true)
    (docOf (reportOf c5wBatch true)) rfl
